import Mathlib

/-!
Verification of the AVIF converter service (`src/app.py`).

The service decodes an uploaded or fetched raster image, normalizes its
color mode, optionally resizes it, and re-encodes it as AVIF.  The shallow
embedding below models an in-memory image by its color mode and pixel
dimensions, models the external imaging library's decode / convert /
resize operations, and embeds the conversion routine `_to_avif_bytes`
together with the two HTTP handlers `convert_file_to_avif` and
`convert_url_to_avif`.  The external encoder is deterministic in the pixel
buffer and the keyword arguments passed to `img.save`, so the emitted
bytes are modelled by that pair.
-/

deriving instance DecidableEq for Except

/-- An in-memory decoded image: its color mode (a string such as "RGB",
"RGBA", "P", "LA", "L", ...) and its pixel dimensions, as exposed by the
imaging library via `img.mode` and `img.size`. -/
structure Image where
  mode : String
  width : Nat
  height : Nat
deriving Repr, DecidableEq

/-- Modelled from the external imaging library: `img.convert(mode)` returns
the same pixel content reinterpreted in the requested color mode. -/
def Image.convert (img : Image) (m : String) : Image :=
  { img with mode := m }

/-- Modelled from the external imaging library: `img.resize((w, h), LANCZOS)`
returns a resampled image of the requested size, and raises
`ValueError("height and width must be > 0")` when either requested dimension
is zero.  Resampling changes neither the color mode nor the requested size,
so pixel contents are not tracked. -/
def Image.resize (img : Image) (w h : Nat) : Except String Image :=
  if w < 1 ∨ h < 1 then Except.error "height and width must be > 0"
  else Except.ok { img with width := w, height := h }

/-- Modelled from the external imaging library: `Image.open(BytesIO(data))`
decodes the input bytes, raising an error on undecodable input.  Input
bytes are abstracted by their decode result: `some img` when the bytes
decode to the image `img`, `none` when they are not a decodable image. -/
def imageOpen : Option Image → Except String Image
  | some img => Except.ok img
  | none => Except.error "cannot identify image file"

/-- Python truthiness of an `Optional[int]` value: `None` and `0` are falsy,
every other integer is truthy. -/
def pyTruthy : Option Nat → Bool
  | none => false
  | some 0 => false
  | some _ => true

/-- Python `a or b` where `a` is an `Optional[int]`: yields `b` when `a` is
falsy (`None` or `0`), and `a` itself otherwise. -/
def pyOr : Option Nat → Nat → Nat
  | none, b => b
  | some 0, b => b
  | some n, _ => n

/-- Bit length of a natural number below 2^32 (number of binary digits,
0 for 0); the first argument is fuel, so the recursion is structural and
reduces in the kernel. -/
def bitLenAux : Nat → Nat → Nat
  | 0, _ => 0
  | fuel + 1, n => if n = 0 then 0 else bitLenAux fuel (n / 2) + 1

/-- Bit length, peeling 32 bits per step to keep the reduction shallow. -/
def bitLenChunks : Nat → Nat → Nat
  | 0, _ => 0
  | fuel + 1, n => if n < 2 ^ 32 then bitLenAux 32 n else bitLenChunks fuel (n / 2 ^ 32) + 32

/-- Bit length of a natural number: exact for every n below 2^1184, which
covers the entire binary64 range used by this model. -/
def bitLen (n : Nat) : Nat := bitLenChunks 37 n

/-- A nonnegative IEEE-754 binary64 value m·2^e, kept normalized (m in
[2^52, 2^53), or m = 0 for zero).  The exponent is unbounded: the
quantities arising in this service are far from binary64 overflow and
underflow, where this model and real doubles agree. -/
structure Float64 where
  m : Nat
  e : Int
deriving Repr, DecidableEq

/-- Rounds n/d at the scale s, where the significand N/D has 53 bits
(N = n·2^(max s 0), D = d·2^(max (-s) 0)): the significand is rounded to
nearest by comparing twice the remainder with D, ties to even, and the
value is (rounded significand)·2^(-s), renormalized if rounding overflows
to 2^53. -/
def roundRatAt (n d : Nat) (s : Int) : Float64 :=
  let N := n * 2 ^ s.toNat
  let D := d * 2 ^ (-s).toNat
  let m := N / D
  let r := N % D
  let m2 :=
    if 2 * r < D then m
    else if D < 2 * r then m + 1
    else if m % 2 = 0 then m else m + 1
  if m2 < 2 ^ 53 then ⟨m2, -s⟩ else ⟨m2 / 2, 1 - s⟩

/-- Modelled from IEEE-754 binary64: the correctly rounded (nearest, ties
to even) double nearest to n/d, for d > 0.  The scale estimate from the
bit lengths puts the truncated significand in [2^52, 2^54); when it
reaches 2^53 the scale is lowered by one. -/
def roundRat (n d : Nat) : Float64 :=
  let s0 : Int := 53 - ((bitLen n : Int) - (bitLen d : Int))
  if n * 2 ^ s0.toNat / (d * 2 ^ (-s0).toNat) < 2 ^ 53 then roundRatAt n d s0
  else roundRatAt n d (s0 - 1)

/-- CPython conversion of a nonnegative int to float: the correctly
rounded double (exact below 2^53). -/
def floatOfNat (n : Nat) : Float64 := roundRat n 1

/-- IEEE-754 binary64 division of nonnegative doubles: the exact ratio of
the significands, correctly rounded, with the exponents subtracted. -/
def floatDiv (a b : Float64) : Float64 :=
  let r := roundRat a.m b.m
  ⟨r.m, r.e + a.e - b.e⟩

/-- IEEE-754 binary64 multiplication of nonnegative doubles: the exact
product of the significands, correctly rounded, with the exponents
added. -/
def floatMul (a b : Float64) : Float64 :=
  let r := roundRat (a.m * b.m) 1
  ⟨r.m, r.e + a.e + b.e⟩

/-- Python `int()` on a nonnegative double: truncation toward zero. -/
def floatTruncNat (x : Float64) : Nat :=
  if 0 ≤ x.e then x.m * 2 ^ x.e.toNat else x.m / 2 ^ (-x.e).toNat

/-- Python `int(a * (b / c))` on nonnegative integers (`src/app.py` lines
41-42), computed as CPython does: the operands are converted to IEEE-754
binary64 doubles, the division and the multiplication are each correctly
rounded (nearest, ties to even), and `int()` truncates the result toward
zero. -/
def pyIntScale (a b c : Nat) : Nat :=
  floatTruncNat (floatMul (floatOfNat a) (floatDiv (floatOfNat b) (floatOfNat c)))

/-- Color-mode normalization, `src/app.py` lines 31-35: palette ("P") and
grayscale-with-alpha ("LA") images are converted to "RGBA"; any other mode
that is not already "RGB" or "RGBA" is also converted to "RGBA". -/
def normalizeMode (img : Image) : Image :=
  if img.mode = "P" ∨ img.mode = "LA" then img.convert "RGBA"
  else if ¬ (img.mode = "RGB" ∨ img.mode = "RGBA") then img.convert "RGBA"
  else img

/-- Optional resize, `src/app.py` lines 38-43: performed only when `width`
or `height` is truthy; a missing dimension is derived from the original
size proportionally, the Python expressions being
`target_w = width or int(w * (height / h))` and
`target_h = height or int(h * (width / w))` with `(w, h)` the size of the
(already normalized) image. -/
def resizeStage (img : Image) (width height : Option Nat) : Except String Image :=
  if pyTruthy width || pyTruthy height then
    Image.resize img
      (pyOr width (pyIntScale img.width (height.getD 0) img.height))
      (pyOr height (pyIntScale img.height (width.getD 0) img.width))
  else Except.ok img

/-- The keyword arguments passed to `img.save`, `src/app.py` lines 46-50:
always `format="AVIF"`; `lossless=True` when lossless was requested,
otherwise `quality=quality`. -/
structure SaveParams where
  format : String
  lossless : Option Bool
  quality : Option Nat
deriving Repr, DecidableEq

/-- Builds the `save_params` dictionary of `src/app.py` lines 46-50. -/
def saveParams (lossless : Bool) (quality : Nat) : SaveParams :=
  if lossless then { format := "AVIF", lossless := some true, quality := none }
  else { format := "AVIF", lossless := none, quality := some quality }

/-- The encoder invocation that produces the returned AVIF bytes: the
external encoder is a deterministic function of the final pixel buffer and
of the keyword arguments given to `img.save`, so the output bytes are
modelled by that pair. -/
structure AvifOutput where
  image : Image
  params : SaveParams
deriving Repr, DecidableEq

/-- Shallow embedding of `_to_avif_bytes` (`src/app.py` lines 22-53):
decode, normalize the color mode, optionally resize, then encode with the
computed save parameters.  Any decode or resize failure propagates as the
raised exception's message. -/
def to_avif_bytes (data : Option Image) (quality : Nat) (lossless : Bool)
    (width height : Option Nat) : Except String AvifOutput :=
  match imageOpen data with
  | Except.error e => Except.error e
  | Except.ok img0 =>
    match resizeStage (normalizeMode img0) width height with
    | Except.error e => Except.error e
    | Except.ok img2 =>
      Except.ok { image := img2, params := saveParams lossless quality }

/-- The declared content types accepted by the upload endpoint
(`src/app.py` line 63). -/
def allowedUploadTypes : List String :=
  ["image/jpeg", "image/jpg", "image/png", "image/webp"]

/-- An HTTP reply of either handler: a successful file response with its
media type and Content-Disposition header, or an HTTPException with a
status code and detail message. -/
inductive HttpReply
  | file (body : AvifOutput) (mediaType : String) (contentDisposition : String)
  | failure (status : Nat) (detail : String)
deriving Repr, DecidableEq

/-- A request to the upload endpoint `/convert`: the declared multipart
content type, the optional client-supplied filename, the uploaded bytes
(abstracted by their decode result, see `imageOpen`), and the validated
query parameters. -/
structure UploadRequest where
  contentType : String
  filename : Option String
  body : Option Image
  quality : Nat
  lossless : Bool
  width : Option Nat
  height : Option Nat
deriving Repr, DecidableEq

/-- The observable outcome of the upload handler: the HTTP reply, whether
`file.read()` was reached, and whether `_to_avif_bytes` was invoked. -/
structure UploadOutcome where
  response : HttpReply
  bodyRead : Bool
  conversionAttempted : Bool
deriving Repr, DecidableEq

/-- Python `(s or default)` for an `Optional[str]`: `None` and the empty
string are falsy. -/
def pyOrStr (s : Option String) (d : String) : String :=
  match s with
  | none => d
  | some s => if s = "" then d else s

/-- Python `s.rsplit(".", 1)[0]`: everything before the last dot, or the
whole string when it contains no dot. -/
def rsplitDotHead (s : String) : String :=
  if s.toList.contains '.' then
    String.mk (((s.toList.reverse.dropWhile (fun c => c != '.')).drop 1).reverse)
  else s

/-- Shallow embedding of the upload handler `convert_file_to_avif`
(`src/app.py` lines 55-72): reject undeclared content types with 415
before reading the body; otherwise read the body, convert, and either
return the AVIF bytes as an attachment named after the uploaded file, or
report any exception as a 500 with its message. -/
def convert_file_to_avif (req : UploadRequest) : UploadOutcome :=
  if req.contentType ∉ allowedUploadTypes then
    { response := HttpReply.failure 415 "Only JPEG/JPG/PNG/WEBP are accepted.",
      bodyRead := false, conversionAttempted := false }
  else
    match to_avif_bytes req.body req.quality req.lossless req.width req.height with
    | Except.ok avif =>
      { response := HttpReply.file avif "image/avif"
          ("attachment; filename=\"" ++ rsplitDotHead (pyOrStr req.filename "image") ++ ".avif\""),
        bodyRead := true, conversionAttempted := true }
    | Except.error msg =>
      { response := HttpReply.failure 500 msg,
        bodyRead := true, conversionAttempted := true }

/-- The outcome the network produces for a URL fetch, as seen through the
HTTP client library: `transportError` for any `httpx.HTTPError` (connection
error, timeout, or the non-2xx status error raised by
`resp.raise_for_status()`), carrying the exception's message; `fetched` for
a successful 2xx response, carrying the response's declared content type
and its body bytes (abstracted by their decode result, see `imageOpen`). -/
inductive FetchOutcome
  | transportError (msg : String)
  | fetched (contentType : String) (body : Option Image)
deriving Repr, DecidableEq

/-- A request to the URL endpoint `/convert-url`: the url and validated
query parameters, together with the outcome the network would produce for
the fetch (an environment input to the handler). -/
structure UrlRequest where
  url : String
  quality : Nat
  lossless : Bool
  width : Option Nat
  height : Option Nat
  timeout : ℚ
  fetch : FetchOutcome
deriving DecidableEq

/-- The observable outcome of the URL handler: the HTTP reply, whether the
network fetch was performed, and whether `_to_avif_bytes` was invoked. -/
structure UrlOutcome where
  response : HttpReply
  fetchAttempted : Bool
  conversionAttempted : Bool
deriving Repr, DecidableEq

/-- Embedding of `re.match(r"^https?://", url, flags=re.I)` being truthy
(`src/app.py` line 83): the url starts, case-insensitively, with
"http://" or "https://". -/
def matchesHttpScheme (url : String) : Bool :=
  (url.toList.map Char.toLower).take 7 == "http://".toList ||
  (url.toList.map Char.toLower).take 8 == "https://".toList

/-- Shallow embedding of the URL handler `convert_url_to_avif`
(`src/app.py` lines 74-99): reject urls without an http(s) scheme with 400
before any network I/O; map any `httpx.HTTPError` from the fetch to a 502
whose detail prepends "Fetch failed: " to the error message; on a
successful fetch, convert regardless of the fetched content type (the
handler reads `resp.headers["content-type"]` and compares it against the
image allow-list, but the mismatch branch is an explicit `pass`), and map
any conversion exception to a 500 with its message. -/
def convert_url_to_avif (req : UrlRequest) : UrlOutcome :=
  if ¬ matchesHttpScheme req.url then
    { response := HttpReply.failure 400 "Invalid URL.",
      fetchAttempted := false, conversionAttempted := false }
  else
    match req.fetch with
    | FetchOutcome.transportError msg =>
      { response := HttpReply.failure 502 ("Fetch failed: " ++ msg),
        fetchAttempted := true, conversionAttempted := false }
    | FetchOutcome.fetched _contentType body =>
      match to_avif_bytes body req.quality req.lossless req.width req.height with
      | Except.ok avif =>
        { response := HttpReply.file avif "image/avif"
            "attachment; filename=\"image.avif\"",
          fetchAttempted := true, conversionAttempted := true }
      | Except.error msg =>
        { response := HttpReply.failure 500 msg,
          fetchAttempted := true, conversionAttempted := true }

/-- Converting an image changes only its mode. -/
lemma Image.convert_width (img : Image) (m : String) : (img.convert m).width = img.width := rfl

/-- Converting an image changes only its mode. -/
lemma Image.convert_height (img : Image) (m : String) : (img.convert m).height = img.height := rfl

/-- Mode normalization does not change the image width. -/
lemma normalizeMode_width (img : Image) : (normalizeMode img).width = img.width := by
  unfold normalizeMode
  split
  · rfl
  · split <;> rfl

/-- Mode normalization does not change the image height. -/
lemma normalizeMode_height (img : Image) : (normalizeMode img).height = img.height := by
  unfold normalizeMode
  split
  · rfl
  · split <;> rfl

/-- Mode normalization leaves "RGB" and "RGBA" images untouched. -/
lemma normalizeMode_of_rgb (img : Image) (h : img.mode = "RGB" ∨ img.mode = "RGBA") :
    normalizeMode img = img := by
  unfold normalizeMode
  rcases h with h | h <;> rw [h] <;> simp

/-- Mode normalization sends every mode other than "RGB" and "RGBA" to "RGBA". -/
lemma normalizeMode_of_other (img : Image) (h : ¬ (img.mode = "RGB" ∨ img.mode = "RGBA")) :
    (normalizeMode img).mode = "RGBA" := by
  unfold normalizeMode
  split
  · rfl
  · rfl

/-- After mode normalization the mode is always "RGB" or "RGBA". -/
lemma normalizeMode_mode (img : Image) :
    (normalizeMode img).mode = "RGB" ∨ (normalizeMode img).mode = "RGBA" := by
  by_cases h : img.mode = "RGB" ∨ img.mode = "RGBA"
  · rw [normalizeMode_of_rgb img h]
    exact h
  · right
    exact normalizeMode_of_other img h

/-- A successful resize stage does not change the color mode. -/
lemma resizeStage_mode (img : Image) (w h : Option Nat) (img2 : Image)
    (hout : resizeStage img w h = Except.ok img2) : img2.mode = img.mode := by
  unfold resizeStage at hout
  split at hout
  · unfold Image.resize at hout
    split at hout
    · simp at hout
    · injection hout with hinj
      rw [← hinj]
  · injection hout with hinj
    rw [← hinj]

/-- Unfolding of the conversion routine on decodable input. -/
lemma to_avif_bytes_some (img : Image) (q : Nat) (l : Bool) (w h : Option Nat) :
    to_avif_bytes (some img) q l w h =
      match resizeStage (normalizeMode img) w h with
      | Except.error e => Except.error e
      | Except.ok img2 => Except.ok { image := img2, params := saveParams l q } := rfl

/-- Resize stage when only a (positive) width is supplied. -/
lemma resizeStage_width_only (img : Image) (n : Nat) :
    resizeStage img (some (n + 1)) none =
      Image.resize img (n + 1) (pyIntScale img.height (n + 1) img.width) := rfl

/-- Resize stage when only a (positive) height is supplied. -/
lemma resizeStage_height_only (img : Image) (n : Nat) :
    resizeStage img none (some (n + 1)) =
      Image.resize img (pyIntScale img.width (n + 1) img.height) (n + 1) := rfl

/-- Resize stage when both (positive) dimensions are supplied. -/
lemma resizeStage_both (img : Image) (a b : Nat) :
    resizeStage img (some (a + 1)) (some (b + 1)) =
      Image.resize img (a + 1) (b + 1) := rfl

/-- Resize stage when neither dimension is supplied. -/
lemma resizeStage_none (img : Image) : resizeStage img none none = Except.ok img := rfl

/-- C1: for every decodable input image, the conversion routine normalizes
the pixel mode before encoding: a decoded mode of "RGB" or "RGBA" is left
unchanged, every other mode (including "P" and "LA") becomes "RGBA", and
hence the encoder is always invoked with a mode that is exactly "RGB" or
"RGBA". -/
theorem mode_normalization_policy :
    (∀ img : Image, (img.mode = "RGB" ∨ img.mode = "RGBA") → normalizeMode img = img) ∧
    (∀ img : Image, ¬ (img.mode = "RGB" ∨ img.mode = "RGBA") →
      (normalizeMode img).mode = "RGBA") ∧
    (∀ (data : Option Image) (q : Nat) (l : Bool) (w h : Option Nat) (out : AvifOutput),
      to_avif_bytes data q l w h = Except.ok out →
        out.image.mode = "RGB" ∨ out.image.mode = "RGBA") := by
  refine ⟨normalizeMode_of_rgb, normalizeMode_of_other, ?_⟩
  intro data q l w h out hout
  match data with
  | none => simp [to_avif_bytes, imageOpen] at hout
  | some img =>
    rw [to_avif_bytes_some] at hout
    rcases hres : resizeStage (normalizeMode img) w h with e | img2
    · rw [hres] at hout
      simp at hout
    · rw [hres] at hout
      injection hout with hinj
      rw [← hinj]
      have hmode := resizeStage_mode (normalizeMode img) w h img2 hres
      simpa [hmode] using normalizeMode_mode img

/-- Witness for C1 at concrete inputs: an "RGB" image survives unchanged, a
palette image becomes "RGBA", and a concrete pipeline run ends with an
encoder mode in the two-element set. -/
theorem mode_normalization_policy_witness :
    normalizeMode ⟨"RGB", 8, 8⟩ = ⟨"RGB", 8, 8⟩ ∧
    (normalizeMode ⟨"P", 8, 8⟩).mode = "RGBA" ∧
    (({ image := ⟨"RGBA", 8, 8⟩, params := ⟨"AVIF", none, some 60⟩ } : AvifOutput).image.mode = "RGB" ∨
     ({ image := ⟨"RGBA", 8, 8⟩, params := ⟨"AVIF", none, some 60⟩ } : AvifOutput).image.mode = "RGBA") :=
  ⟨mode_normalization_policy.1 ⟨"RGB", 8, 8⟩ (Or.inl rfl),
   mode_normalization_policy.2.1 ⟨"P", 8, 8⟩ (by decide),
   mode_normalization_policy.2.2 (some ⟨"LA", 8, 8⟩) 60 false none none
     ⟨⟨"RGBA", 8, 8⟩, ⟨"AVIF", none, some 60⟩⟩ rfl⟩

/-- A successful conversion of decodable input factors through a successful
resize stage, and the output pairs the resized image with the save
parameters. -/
lemma to_avif_bytes_ok_inv (img : Image) (q : Nat) (l : Bool) (w h : Option Nat)
    (out : AvifOutput) (hout : to_avif_bytes (some img) q l w h = Except.ok out) :
    ∃ img2, resizeStage (normalizeMode img) w h = Except.ok img2 ∧
      out = { image := img2, params := saveParams l q } := by
  rw [to_avif_bytes_some] at hout
  rcases hres : resizeStage (normalizeMode img) w h with e | img2 <;> rw [hres] at hout
  · simp at hout
  · refine ⟨img2, rfl, ?_⟩
    injection hout with hinj
    exact hinj.symm

/-- A successful resize yields exactly the requested dimensions. -/
lemma resize_ok_inv (img : Image) (w h : Nat) (img2 : Image)
    (hr : Image.resize img w h = Except.ok img2) :
    img2 = { img with width := w, height := h } := by
  unfold Image.resize at hr
  split at hr
  · simp at hr
  · injection hr with hinj
    exact hinj.symm

/-- C2: when exactly one target dimension is supplied, the conversion
routine uses the supplied dimension exactly and derives the missing one by
integer truncation of the proportional scale as Python computes it in
binary64 double arithmetic: given width only, the output height is
`int(h * (width / w))`; given height only, the output width is
`int(w * (height / h))`. -/
theorem proportional_resize_single_dimension
    (img : Image) (q : Nat) (l : Bool) (width height : Nat)
    (hw : 1 ≤ width) (hh : 1 ≤ height) :
    (∀ out : AvifOutput, to_avif_bytes (some img) q l (some width) none = Except.ok out →
        out.image.width = width ∧
        out.image.height = pyIntScale img.height width img.width) ∧
    (∀ out : AvifOutput, to_avif_bytes (some img) q l none (some height) = Except.ok out →
        out.image.width = pyIntScale img.width height img.height ∧
        out.image.height = height) := by
  obtain ⟨a, rfl⟩ := Nat.exists_eq_succ_of_ne_zero (Nat.one_le_iff_ne_zero.mp hw)
  obtain ⟨b, rfl⟩ := Nat.exists_eq_succ_of_ne_zero (Nat.one_le_iff_ne_zero.mp hh)
  constructor
  · intro out hout
    obtain ⟨img2, hres, hout2⟩ := to_avif_bytes_ok_inv _ _ _ _ _ _ hout
    rw [resizeStage_width_only, normalizeMode_height, normalizeMode_width] at hres
    rw [hout2, resize_ok_inv _ _ _ _ hres]
    exact ⟨rfl, rfl⟩
  · intro out hout
    obtain ⟨img2, hres, hout2⟩ := to_avif_bytes_ok_inv _ _ _ _ _ _ hout
    rw [resizeStage_height_only, normalizeMode_height, normalizeMode_width] at hres
    rw [hout2, resize_ok_inv _ _ _ _ hres]
    exact ⟨rfl, rfl⟩

/-- Witness for C2: an 800×600 image with width=400 resizes to 400×300,
and pyIntScale 600 400 800 = 300. -/
theorem proportional_resize_single_dimension_witness :
    (1 : Nat) ≤ 400 ∧ (1 : Nat) ≤ 300 ∧
    (({ image := ⟨"RGB", 400, 300⟩, params := ⟨"AVIF", none, some 60⟩ } : AvifOutput).image.width = 400 ∧
     ({ image := ⟨"RGB", 400, 300⟩, params := ⟨"AVIF", none, some 60⟩ } : AvifOutput).image.height =
       pyIntScale 600 400 800) := by
  refine ⟨by decide, by decide, ?_⟩
  exact (proportional_resize_single_dimension ⟨"RGB", 800, 600⟩ 60 false 400 300
      (by decide) (by decide)).1
    ⟨⟨"RGB", 400, 300⟩, ⟨"AVIF", none, some 60⟩⟩ (by decide)

/-- C3: when both target dimensions are supplied the conversion routine
resizes to exactly that size regardless of the original aspect ratio, and
when neither is supplied no resize happens and the encoded image keeps the
decoded dimensions. -/
theorem resize_both_exact_or_skipped
    (img : Image) (q : Nat) (l : Bool) (width height : Nat)
    (hw : 1 ≤ width) (hh : 1 ≤ height) :
    (∀ out : AvifOutput, to_avif_bytes (some img) q l (some width) (some height) = Except.ok out →
        out.image.width = width ∧ out.image.height = height) ∧
    (∀ out : AvifOutput, to_avif_bytes (some img) q l none none = Except.ok out →
        out.image.width = img.width ∧ out.image.height = img.height) := by
  obtain ⟨a, rfl⟩ := Nat.exists_eq_succ_of_ne_zero (Nat.one_le_iff_ne_zero.mp hw)
  obtain ⟨b, rfl⟩ := Nat.exists_eq_succ_of_ne_zero (Nat.one_le_iff_ne_zero.mp hh)
  constructor
  · intro out hout
    obtain ⟨img2, hres, hout2⟩ := to_avif_bytes_ok_inv _ _ _ _ _ _ hout
    rw [resizeStage_both] at hres
    rw [hout2, resize_ok_inv _ _ _ _ hres]
    exact ⟨rfl, rfl⟩
  · intro out hout
    obtain ⟨img2, hres, hout2⟩ := to_avif_bytes_ok_inv _ _ _ _ _ _ hout
    rw [resizeStage_none] at hres
    injection hres with hres2
    rw [hout2, ← hres2]
    exact ⟨normalizeMode_width img, normalizeMode_height img⟩

/-- Witness for C3: a 800×600 image with width=123, height=45 resizes to
exactly 123×45, and with no dimensions supplied keeps 800×600. -/
theorem resize_both_exact_or_skipped_witness :
    (1 : Nat) ≤ 123 ∧ (1 : Nat) ≤ 45 ∧
    (({ image := ⟨"RGB", 123, 45⟩, params := ⟨"AVIF", none, some 60⟩ } : AvifOutput).image.width = 123 ∧
     ({ image := ⟨"RGB", 123, 45⟩, params := ⟨"AVIF", none, some 60⟩ } : AvifOutput).image.height = 45) ∧
    (({ image := ⟨"RGB", 800, 600⟩, params := ⟨"AVIF", none, some 60⟩ } : AvifOutput).image.width = 800 ∧
     ({ image := ⟨"RGB", 800, 600⟩, params := ⟨"AVIF", none, some 60⟩ } : AvifOutput).image.height = 600) := by
  refine ⟨by decide, by decide, ?_, ?_⟩
  · exact (resize_both_exact_or_skipped ⟨"RGB", 800, 600⟩ 60 false 123 45
        (by decide) (by decide)).1
      ⟨⟨"RGB", 123, 45⟩, ⟨"AVIF", none, some 60⟩⟩ (by decide)
  · exact (resize_both_exact_or_skipped ⟨"RGB", 800, 600⟩ 60 false 123 45
        (by decide) (by decide)).2
      ⟨⟨"RGB", 800, 600⟩, ⟨"AVIF", none, some 60⟩⟩ rfl

/-- C4: with lossless=true the encoder is invoked in lossless mode without a
quality argument, so two conversions of the same input that differ only in
the quality value (both within 1..100) produce identical output. -/
theorem lossless_ignores_quality
    (data : Option Image) (q1 q2 : Nat) (w h : Option Nat)
    (hq1 : 1 ≤ q1 ∧ q1 ≤ 100) (hq2 : 1 ≤ q2 ∧ q2 ≤ 100) :
    to_avif_bytes data q1 true w h = to_avif_bytes data q2 true w h := rfl

/-- Witness for C4: quality 10 and quality 90 give identical lossless
output on a concrete image. -/
theorem lossless_ignores_quality_witness :
    ((1 : Nat) ≤ 10 ∧ (10 : Nat) ≤ 100) ∧ ((1 : Nat) ≤ 90 ∧ (90 : Nat) ≤ 100) ∧
    to_avif_bytes (some ⟨"RGB", 4, 4⟩) 10 true none none =
      to_avif_bytes (some ⟨"RGB", 4, 4⟩) 90 true none none :=
  ⟨by decide, by decide,
   lossless_ignores_quality (some ⟨"RGB", 4, 4⟩) 10 90 none none (by decide) (by decide)⟩

/-- C5: an upload whose declared content type is not in the image allow-list
is answered with HTTP 415 and a fixed message, before the body is read and
before the conversion routine is invoked. -/
theorem upload_rejects_undeclared_content_type
    (req : UploadRequest) (h : req.contentType ∉ allowedUploadTypes) :
    convert_file_to_avif req =
      { response := HttpReply.failure 415 "Only JPEG/JPG/PNG/WEBP are accepted.",
        bodyRead := false, conversionAttempted := false } := by
  unfold convert_file_to_avif
  rw [if_pos h]

/-- Witness for C5: a text/plain upload is rejected with 415 and neither
reads the body nor converts. -/
theorem upload_rejects_undeclared_content_type_witness :
    ("text/plain" ∉ allowedUploadTypes) ∧
    convert_file_to_avif ⟨"text/plain", some "a.txt", none, 60, false, none, none⟩ =
      { response := HttpReply.failure 415 "Only JPEG/JPG/PNG/WEBP are accepted.",
        bodyRead := false, conversionAttempted := false } :=
  ⟨by decide, upload_rejects_undeclared_content_type _ (by decide)⟩

/-- C6: a url without the case-insensitive "http://" or "https://" textual
prefix is answered with HTTP 400 before any network I/O, and every url with
that prefix passes the check and reaches the fetch. -/
theorem url_scheme_check (req : UrlRequest) :
    (matchesHttpScheme req.url = false →
      convert_url_to_avif req =
        { response := HttpReply.failure 400 "Invalid URL.",
          fetchAttempted := false, conversionAttempted := false }) ∧
    (matchesHttpScheme req.url = true →
      (convert_url_to_avif req).fetchAttempted = true) := by
  obtain ⟨url, q, l, w, hh, t, fetch⟩ := req
  constructor
  · intro h
    simp [convert_url_to_avif, h]
  · intro h
    rcases fetch with msg | ⟨ct, body⟩
    · simp [convert_url_to_avif, h]
    · rcases hconv : to_avif_bytes body q l w hh with e | av <;>
        simp [convert_url_to_avif, h, hconv]

/-- Witness for C6: an ftp url is rejected with 400 without a fetch, while
an upper-case HTTP url passes the check and reaches the fetch. -/
theorem url_scheme_check_witness :
    (matchesHttpScheme "ftp://example.com/x.png" = false ∧
     convert_url_to_avif
       ⟨"ftp://example.com/x.png", 60, false, none, none, 20,
        FetchOutcome.fetched "image/png" none⟩ =
       { response := HttpReply.failure 400 "Invalid URL.",
         fetchAttempted := false, conversionAttempted := false }) ∧
    (matchesHttpScheme "HTTP://example.com/a.png" = true ∧
     (convert_url_to_avif
       ⟨"HTTP://example.com/a.png", 60, false, none, none, 20,
        FetchOutcome.transportError "boom"⟩).fetchAttempted = true) :=
  ⟨⟨by decide, (url_scheme_check _).1 (by decide)⟩,
   ⟨by decide, (url_scheme_check _).2 (by decide)⟩⟩

/-- C7: a transport-level fetch failure is answered with HTTP 502 whose
detail prepends "Fetch failed: " to the underlying message, while a
conversion failure after a successful fetch is answered with HTTP 500
carrying the exception's message. -/
theorem url_error_status_mapping (req : UrlRequest) :
    (∀ msg, matchesHttpScheme req.url = true →
      req.fetch = FetchOutcome.transportError msg →
      convert_url_to_avif req =
        { response := HttpReply.failure 502 ("Fetch failed: " ++ msg),
          fetchAttempted := true, conversionAttempted := false }) ∧
    (∀ ct body msg, matchesHttpScheme req.url = true →
      req.fetch = FetchOutcome.fetched ct body →
      to_avif_bytes body req.quality req.lossless req.width req.height = Except.error msg →
      convert_url_to_avif req =
        { response := HttpReply.failure 500 msg,
          fetchAttempted := true, conversionAttempted := true }) := by
  obtain ⟨url, q, l, w, hh, t, fetch⟩ := req
  constructor
  · intro msg h hf
    subst hf
    simp [convert_url_to_avif, h]
  · intro ct body msg h hf hconv
    subst hf
    simp [convert_url_to_avif, h, hconv]

/-- Witness for C7: a connection error maps to 502 with the prefixed
detail, and an undecodable fetched body maps to 500 with the decode
error message. -/
theorem url_error_status_mapping_witness :
    (matchesHttpScheme "http://unreachable.example/" = true ∧
     convert_url_to_avif
       ⟨"http://unreachable.example/", 60, false, none, none, 20,
        FetchOutcome.transportError "connection refused"⟩ =
       { response := HttpReply.failure 502 ("Fetch failed: " ++ "connection refused"),
         fetchAttempted := true, conversionAttempted := false }) ∧
    (convert_url_to_avif
       ⟨"http://example.com/not-an-image", 60, false, none, none, 20,
        FetchOutcome.fetched "text/html" none⟩ =
       { response := HttpReply.failure 500 "cannot identify image file",
         fetchAttempted := true, conversionAttempted := true }) :=
  ⟨⟨by decide,
    (url_error_status_mapping _).1 "connection refused" (by decide) rfl⟩,
   (url_error_status_mapping _).2 "text/html" none "cannot identify image file"
     (by decide) rfl rfl⟩

/-- C8: the content type of a successfully fetched resource never causes a
rejection: the handler's outcome does not depend on it, and conversion is
always attempted on the fetched bytes. -/
theorem fetched_content_type_not_enforced
    (url : String) (q : Nat) (l : Bool) (w h : Option Nat) (t : ℚ)
    (ct ct2 : String) (body : Option Image)
    (hs : matchesHttpScheme url = true) :
    convert_url_to_avif ⟨url, q, l, w, h, t, FetchOutcome.fetched ct body⟩ =
      convert_url_to_avif ⟨url, q, l, w, h, t, FetchOutcome.fetched ct2 body⟩ ∧
    (convert_url_to_avif ⟨url, q, l, w, h, t, FetchOutcome.fetched ct body⟩).conversionAttempted =
      true := by
  constructor
  · rfl
  · rcases hconv : to_avif_bytes body q l w h with e | av <;>
      simp [convert_url_to_avif, hs, hconv]

/-- Witness for C8: with a text/html and an image/png declared content type
for the same fetched body, the outcomes coincide and conversion is
attempted. -/
theorem fetched_content_type_not_enforced_witness :
    matchesHttpScheme "https://example.com/pic" = true ∧
    (convert_url_to_avif
       ⟨"https://example.com/pic", 60, false, none, none, 20,
        FetchOutcome.fetched "text/html" (some ⟨"RGB", 2, 2⟩)⟩ =
     convert_url_to_avif
       ⟨"https://example.com/pic", 60, false, none, none, 20,
        FetchOutcome.fetched "image/png" (some ⟨"RGB", 2, 2⟩)⟩ ∧
     (convert_url_to_avif
       ⟨"https://example.com/pic", 60, false, none, none, 20,
        FetchOutcome.fetched "text/html" (some ⟨"RGB", 2, 2⟩)⟩).conversionAttempted = true) :=
  ⟨by decide,
   fetched_content_type_not_enforced "https://example.com/pic" 60 false none none 20
     "text/html" "image/png" (some ⟨"RGB", 2, 2⟩) (by decide)⟩

/-- Reduction of the upload handler on an accepted content type and a
successful conversion. -/
lemma convert_file_ok (req : UploadRequest) (out : AvifOutput)
    (hct : req.contentType ∈ allowedUploadTypes)
    (hconv : to_avif_bytes req.body req.quality req.lossless req.width req.height =
      Except.ok out) :
    convert_file_to_avif req =
      { response := HttpReply.file out "image/avif"
          ("attachment; filename=\"" ++ rsplitDotHead (pyOrStr req.filename "image") ++ ".avif\""),
        bodyRead := true, conversionAttempted := true } := by
  unfold convert_file_to_avif
  rw [if_neg (not_not_intro hct), hconv]

/-- C9: the suggested filename strips everything after the last dot of the
uploaded filename; a filename with no dot is used in full, the filename
".png" yields an empty base and the Content-Disposition filename literally
".avif", and the default base "image" applies exactly when the filename is
absent (None) or the empty string. -/
theorem upload_filename_edge_cases
    (req : UploadRequest) (out : AvifOutput)
    (hct : req.contentType ∈ allowedUploadTypes)
    (hconv : to_avif_bytes req.body req.quality req.lossless req.width req.height =
      Except.ok out) :
    (∀ f : String, req.filename = some f → f ≠ "" → f.toList.contains '.' = false →
      (convert_file_to_avif req).response =
        HttpReply.file out "image/avif" ("attachment; filename=\"" ++ f ++ ".avif\"")) ∧
    (req.filename = some ".png" →
      (convert_file_to_avif req).response =
        HttpReply.file out "image/avif" "attachment; filename=\".avif\"") ∧
    ((req.filename = none ∨ req.filename = some "") →
      (convert_file_to_avif req).response =
        HttpReply.file out "image/avif" "attachment; filename=\"image.avif\"") := by
  refine ⟨?_, ?_, ?_⟩
  · intro f hf hne hdot
    rw [convert_file_ok req out hct hconv, hf]
    have h1 : pyOrStr (some f) "image" = f := by simp [pyOrStr, hne]
    have h2 : rsplitDotHead f = f := by
      unfold rsplitDotHead
      rw [if_neg (by simp only [hdot]; exact Bool.false_ne_true)]
    rw [h1, h2]
  · intro hf
    rw [convert_file_ok req out hct hconv, hf]
    have h1 : rsplitDotHead (pyOrStr (some ".png") "image") = "" := by decide
    rw [h1]
    rfl
  · intro hf
    rcases hf with hf | hf <;> rw [convert_file_ok req out hct hconv, hf]
    · have h1 : rsplitDotHead (pyOrStr none "image") = "image" := by decide
      rw [h1]
      rfl
    · have h1 : rsplitDotHead (pyOrStr (some "") "image") = "image" := by decide
      rw [h1]
      rfl

/-- Witness for C9: for an accepted upload with filename "photo" (no dot)
the suggested attachment name is "photo.avif". -/
theorem upload_filename_edge_cases_witness :
    ("image/png" ∈ allowedUploadTypes) ∧
    to_avif_bytes (some ⟨"RGB", 2, 2⟩) 60 false none none =
      Except.ok ⟨⟨"RGB", 2, 2⟩, ⟨"AVIF", none, some 60⟩⟩ ∧
    ("photo" : String).toList.contains '.' = false ∧
    (convert_file_to_avif
        ⟨"image/png", some "photo", some ⟨"RGB", 2, 2⟩, 60, false, none, none⟩).response =
      HttpReply.file ⟨⟨"RGB", 2, 2⟩, ⟨"AVIF", none, some 60⟩⟩ "image/avif"
        "attachment; filename=\"photo.avif\"" := by
  refine ⟨by decide, rfl, by decide, ?_⟩
  exact (upload_filename_edge_cases
      ⟨"image/png", some "photo", some ⟨"RGB", 2, 2⟩, 60, false, none, none⟩
      ⟨⟨"RGB", 2, 2⟩, ⟨"AVIF", none, some 60⟩⟩ (by decide) rfl).1
    "photo" rfl (by decide) (by decide)

/-- C10: the proportional-resize computation can produce a zero target
dimension: for a 1000×1 original with width=500 the computed target height
is int(1 * (500 / 1000)) = 0, the resize step then fails, and the upload
request ends in the generic HTTP 500 processing-error path. -/
theorem zero_target_dimension_yields_500 :
    pyIntScale 1 500 1000 = 0 ∧
    to_avif_bytes (some ⟨"RGB", 1000, 1⟩) 60 false (some 500) none =
      Except.error "height and width must be > 0" ∧
    (convert_file_to_avif
        ⟨"image/png", some "wide.png", some ⟨"RGB", 1000, 1⟩, 60, false, some 500, none⟩).response =
      HttpReply.failure 500 "height and width must be > 0" := by
  have h2 : to_avif_bytes (some ⟨"RGB", 1000, 1⟩) 60 false (some 500) none =
      Except.error "height and width must be > 0" := by decide
  refine ⟨by decide, h2, ?_⟩
  unfold convert_file_to_avif
  rw [if_neg (by decide)]
  rw [show (⟨"image/png", some "wide.png", some ⟨"RGB", 1000, 1⟩, 60, false, some 500,
        none⟩ : UploadRequest).body = some ⟨"RGB", 1000, 1⟩ from rfl]
  rw [show (⟨"image/png", some "wide.png", some ⟨"RGB", 1000, 1⟩, 60, false, some 500,
        none⟩ : UploadRequest).width = some 500 from rfl]
  rw [h2]
